import Mathlib

/-!
Shallow embedding of `src/telegram_bot.py` (the "Онлайн-Поликлиника" Telegram
survey bot), covering the survey conversation state machine, its persistence
gateway `save_survey_data`, the cancel fallbacks, and the startup
configuration check.  Python handlers become Lean functions; the per-user
conversation state of `ConversationHandler` becomes an explicit `Session`
value threaded through a step function; the Firestore backend is modelled by
an explicit outcome argument (`Except String Unit`: the result of the
`collection_ref.add` call, which either succeeds or raises).
-/

set_option maxRecDepth 8000

namespace RenderBot

/-- Button label `SURVEY_BTN` (telegram_bot.py line 88). -/
def SURVEY_BTN : String := "📊 Заполнить анкету"

/-- Button label `CANCEL_BTN` (line 94). -/
def CANCEL_BTN : String := "❌ Отмена"

/-- Drop leading whitespace characters. -/
def stripLeading : List Char → List Char
  | [] => []
  | c :: rest => if c.isWhitespace then stripLeading rest else c :: rest

/-- Python `str.strip()` as used on every incoming answer: remove whitespace
(space, tab, CR, LF) from both ends.  Python additionally strips a few rarer
Unicode whitespace characters, which no claim depends on. -/
def pyStrip (s : String) : String :=
  String.mk (stripLeading (stripLeading s.data).reverse).reverse

/-- Digit accumulator for `pyIntParse`: consumes ASCII digits, allowing a
single underscore between two digits (Python `int` literal-style grouping),
rejecting anything else. -/
def pyIntDigits : List Char → Nat → Option Nat
  | [], acc => some acc
  | c :: rest, acc =>
    if c.isDigit then pyIntDigits rest (acc * 10 + (c.toNat - '0'.toNat))
    else if c = '_' then
      match rest with
      | [] => none
      | d :: _ => if d.isDigit then pyIntDigits rest acc else none
    else none

/-- Unsigned digit run: must be non-empty and start with a digit. -/
def pyIntDigitsStart (cs : List Char) : Option Nat :=
  match cs with
  | [] => none
  | c :: _ => if c.isDigit then pyIntDigits cs 0 else none

/-- Python `int(s)` on an already-stripped string (line 266 does
`int(update.message.text.strip())`): optional sign followed by ASCII digits
with optional single underscores between digits; `none` models the
`ValueError` Python raises on any other input.  (Python also accepts
non-ASCII decimal digits; no claim depends on those.) -/
def pyIntParse (s : String) : Option Int :=
  match s.data with
  | '+' :: rest => (pyIntDigitsStart rest).map Int.ofNat
  | '-' :: rest => (pyIntDigitsStart rest).map (fun n => -(Int.ofNat n))
  | cs => (pyIntDigitsStart cs).map Int.ofNat

/-- The in-progress survey dictionary `context.user_data['survey']`
(lines 253, 270, 287, 299, 311, 323).  Each field is `none` until the
corresponding handler writes it.  The `timestamp` and `date` keys added
inside `save_survey_data` (lines 129-130) are server/clock metadata, not
answer fields, and are not modelled. -/
structure Survey where
  pain_score : Option Int := none
  sleep_description : Option String := none
  medication_compliance : Option String := none
  side_effects : Option String := none
  comments : Option String := none
deriving DecidableEq

/-- The empty dictionary created by `start_survey` (line 253). -/
def emptySurvey : Survey := {}

/-- Conversation position of the survey `ConversationHandler` (lines 97-101,
396-406).  `idle` is "no active conversation": both the never-started state
and the state after `ConversationHandler.END` — the spec's `Terminal` is
`idle` with the session data cleared. -/
inductive ConvState where
  | idle
  | q1
  | q2
  | q3
  | q4
  | q5
deriving DecidableEq

/-- Per-user dialog state: the conversation position plus the `survey` key
of `context.user_data` (absent when `none`). -/
structure Session where
  conv : ConvState
  survey : Option Survey
deriving DecidableEq

/-- What one Python handler returns/effects: the new `survey` user-data
entry, the state it returns, the replies it sends, and the records it passes
to `save_survey_data`. -/
structure HandlerOut where
  survey : Option Survey
  conv : ConvState
  replies : List String
  submits : List Survey
deriving DecidableEq

/-- Result of processing one inbound message: new session, replies sent,
records submitted to the persistence gateway. -/
structure StepResult where
  session : Session
  replies : List String
  submits : List Survey
deriving DecidableEq

/-- Prompt sent by `start_survey` (line 257). -/
def step1Prompt : String :=
  "**ШАГ 1/5: Оценка боли**\n\nОцените ваш уровень таламической боли сейчас по шкале от **0 (нет боли)** до **10 (самая сильная боль)**. Введите число."

/-- Prompt sent by `q1_pain` on success (line 274), interpolating the
accepted score. -/
def q2Prompt (pain_score : Int) : String :=
  "Принято, оценка боли: **" ++ toString pain_score ++ "**.\n\n**ШАГ 2/5: Сон**\n\nОцените качество вашего сна за последнюю ночь (количество часов, прерывания, общая бодрость). Опишите кратко."

/-- Error reply of `q1_pain` (line 281). -/
def painErrorMessage : String :=
  "Некорректный ввод. Пожалуйста, введите число от 0 до 10 или /cancel."

/-- Prompt sent by `q2_sleep` (line 291). -/
def q3Prompt : String :=
  "Принято.\n\n**ШАГ 3/5: Лечение**\n\nПринимали ли вы сегодня предписанные препараты (например, антидепрессанты, противосудорожные) согласно назначению врача?"

/-- Prompt sent by `q3_medication` (line 303). -/
def q4Prompt : String :=
  "Принято.\n\n**ШАГ 4/5: Побочные эффекты**\n\nОщущали ли вы сегодня какие-либо побочные эффекты от принимаемого лечения (сонливость, тошнота, головокружение)? Опишите кратко."

/-- Prompt sent by `q4_side_effects` (line 315). -/
def q5Prompt : String :=
  "Принято.\n\n**ШАГ 5/5: Комментарии**\n\nЕсть ли у вас общие комментарии, вопросы или дополнительная информация, которую вы хотели бы сообщить врачу?"

/-- Rendering of `final_survey_data.get('pain_score', 'N/A')` inside the
f-string on line 336. -/
def painScoreGet (sv : Survey) : String :=
  match sv.pain_score with
  | some p => toString p
  | none => "N/A"

/-- Success reply of `q5_comments_and_save` (lines 333-339).  The message is
a concatenation of adjacent Python string literals; only the literal on
line 336 carries an `f` prefix, so the medication line (line 337) is NOT
interpolated: it contains the brace expression verbatim. -/
def successMessage (final_survey_data : Survey) : String :=
  "✅ **Анкета успешно заполнена!**\n\n" ++
  "Ваши данные переданы на анализ. Ваш врач увидит:\n" ++
  ("- Оценка боли: **" ++ painScoreGet final_survey_data ++ " / 10**\n") ++
  "- Прием лекарств: \x7bfinal_survey_data.get(\x27medication_compliance\x27, \x27N/A\x27)\x7d\n\n" ++
  "Спасибо за вашу оперативность. Мы с вами на связи."

/-- The verbatim, uninterpolated medication line of the success reply
(line 337, a plain string literal without an `f` prefix). -/
def medicationLiteralLine : String :=
  "- Прием лекарств: \x7bfinal_survey_data.get(\x27medication_compliance\x27, \x27N/A\x27)\x7d"

/-- Failure reply of `q5_comments_and_save` (lines 341-345). -/
def saveErrorMessage : String :=
  "❌ **Ошибка сохранения!**\n\nК сожалению, не удалось сохранить вашу анкету в базу данных. Пожалуйста, попробуйте позже или свяжитесь с технической поддержкой."

/-- Reply of `cancel` (line 366). -/
def cancelMessage : String :=
  "Действие отменено. Вы вернулись в главное меню."

/-- Firestore collection reference (lines 114-119): available exactly when
the database client `db` is. -/
def get_survey_collection_ref (db : Bool) : Option Unit :=
  if db then some () else none

/-- Body of the `try` block of `save_survey_data` (lines 127-138):
`addOutcome` is the behaviour of `await collection_ref.add(...)`, which
either completes or raises (`Except.error`).  An exception propagates out of
the body; the `return False` arm is the `collection_ref` `None` check. -/
def save_survey_attempt (db : Bool) (addOutcome : Except String Unit) : Except String Bool :=
  match get_survey_collection_ref db with
  | some _ =>
    match addOutcome with
    | Except.ok _ => Except.ok true
    | Except.error e => Except.error e
  | none => Except.ok false

/-- `save_survey_data` (lines 121-142): returns `False` when the database
client is unavailable; otherwise runs the `try` body and catches ANY
exception, logging it and returning `False`.  Total: it never propagates an
error to its caller. -/
def save_survey_data (db : Bool) (addOutcome : Except String Unit) : Bool :=
  if !db then false
  else
    match save_survey_attempt db addOutcome with
    | Except.ok b => b
    | Except.error _ => false

/-- `start_survey` (lines 250-261): fresh empty survey dict, step-1 prompt,
go to `Q1_PAIN`. -/
def start_survey : StepResult :=
  { session := { conv := ConvState.q1, survey := some emptySurvey },
    replies := [step1Prompt],
    submits := [] }

/-- `q1_pain` (lines 263-283): parse the stripped text as an int; out of
range `[0,10]` raises `ValueError` like a parse failure; on success store
`pain_score` and go to `Q2_SLEEP`, else re-prompt and stay in `Q1_PAIN`. -/
def q1_pain (sv : Survey) (text : String) : HandlerOut :=
  match pyIntParse (pyStrip text) with
  | some pain_score =>
    if 0 ≤ pain_score ∧ pain_score ≤ 10 then
      { survey := some { sv with pain_score := some pain_score },
        conv := ConvState.q2,
        replies := [q2Prompt pain_score],
        submits := [] }
    else
      { survey := some sv, conv := ConvState.q1, replies := [painErrorMessage], submits := [] }
  | none =>
      { survey := some sv, conv := ConvState.q1, replies := [painErrorMessage], submits := [] }

/-- `q2_sleep` (lines 285-295): store the stripped text, go to
`Q3_MEDICATION`. -/
def q2_sleep (sv : Survey) (text : String) : HandlerOut :=
  { survey := some { sv with sleep_description := some (pyStrip text) },
    conv := ConvState.q3,
    replies := [q3Prompt],
    submits := [] }

/-- `q3_medication` (lines 297-307): store the stripped text, go to
`Q4_SIDE_EFFECTS`. -/
def q3_medication (sv : Survey) (text : String) : HandlerOut :=
  { survey := some { sv with medication_compliance := some (pyStrip text) },
    conv := ConvState.q4,
    replies := [q4Prompt],
    submits := [] }

/-- `q4_side_effects` (lines 309-319): store the stripped text, go to
`Q5_COMMENTS`. -/
def q4_side_effects (sv : Survey) (text : String) : HandlerOut :=
  { survey := some { sv with side_effects := some (pyStrip text) },
    conv := ConvState.q5,
    replies := [q5Prompt],
    submits := [] }

/-- `q5_comments_and_save` (lines 321-355): store the stripped comment, pass
the full record to `save_survey_data` exactly once, reply with the success or
failure message, clear the user data (`context.user_data.clear()`), return
`ConversationHandler.END`. -/
def q5_comments_and_save (db : Bool) (addOutcome : Except String Unit)
    (sv : Survey) (text : String) : HandlerOut :=
  let final_survey_data : Survey := { sv with comments := some (pyStrip text) }
  let success := save_survey_data db addOutcome
  { survey := none,
    conv := ConvState.idle,
    replies := [if success then successMessage final_survey_data else saveErrorMessage],
    submits := [final_survey_data] }

/-- `cancel` (lines 360-370): pop the `survey` key, reply, end the
conversation. -/
def cancel : StepResult :=
  { session := { conv := ConvState.idle, survey := none },
    replies := [cancelMessage],
    submits := [] }

/-- `filters.COMMAND`: the message text is a bot command (starts with `/`). -/
def isCommandText (t : String) : Bool :=
  match t.data with
  | c :: _ => c == '/'
  | [] => false

/-- The per-state message filter
`filters.TEXT & ~filters.COMMAND & ~filters.Regex("^❌ Отмена$")`
(lines 399-403); all modelled inputs are text messages. -/
def filtersPass (t : String) : Bool := !isCommandText t && !(t == CANCEL_BTN)

/-- The `CommandHandler("cancel", cancel)` fallback (line 391), modelled as
the exact `/cancel` text. -/
def isCancelCommand (t : String) : Bool := t == "/cancel"

/-- Dispatch to a state handler through the `survey` user-data key.  Inside
an active conversation the key was set by `start_survey`; if it were absent
the Python handler would raise `KeyError`, which python-telegram-bot catches
in its dispatcher leaving the conversation state unchanged — modelled as a
no-op. -/
def applyHandler (sess : Session) (h : Survey → HandlerOut) : StepResult :=
  match sess.survey with
  | some sv =>
    let o := h sv
    { session := { conv := o.conv, survey := o.survey },
      replies := o.replies,
      submits := o.submits }
  | none => { session := sess, replies := [], submits := [] }

/-- Routing inside an active survey state (lines 396-406): state handlers
are tried first (their filter excludes commands and the cancel button), then
the fallbacks `/cancel` and the cancel button; any other message is left to
no handler of this conversation and changes nothing. -/
def stateStep (sess : Session) (t : String) (h : Survey → HandlerOut) : StepResult :=
  if filtersPass t then applyHandler sess h
  else if isCancelCommand t || t == CANCEL_BTN then cancel
  else { session := sess, replies := [], submits := [] }

/-- One inbound text message processed by the survey `ConversationHandler`
(lines 396-406): entry point `^📊 Заполнить анкету$` when no conversation is
active, otherwise the current state's handler or the cancel fallbacks. -/
def surveyStep (db : Bool) (addOutcome : Except String Unit)
    (sess : Session) (t : String) : StepResult :=
  match sess.conv with
  | ConvState.idle =>
      if t == SURVEY_BTN then start_survey
      else { session := sess, replies := [], submits := [] }
  | ConvState.q1 => stateStep sess t (fun sv => q1_pain sv t)
  | ConvState.q2 => stateStep sess t (fun sv => q2_sleep sv t)
  | ConvState.q3 => stateStep sess t (fun sv => q3_medication sv t)
  | ConvState.q4 => stateStep sess t (fun sv => q4_side_effects sv t)
  | ConvState.q5 => stateStep sess t (fun sv => q5_comments_and_save db addOutcome sv t)

/-- Fold `surveyStep` over a list of inbound messages, accumulating replies
and submitted records. -/
def runSurveyFrom (db : Bool) (addOutcome : Except String Unit) :
    List String → StepResult → StepResult
  | [], acc => acc
  | t :: ts, acc =>
    let r := surveyStep db addOutcome acc.session t
    runSurveyFrom db addOutcome ts
      { session := r.session,
        replies := acc.replies ++ r.replies,
        submits := acc.submits ++ r.submits }

/-- A whole dialog from the idle state (no conversation, no `survey` key). -/
def runSurvey (db : Bool) (addOutcome : Except String Unit)
    (inputs : List String) : StepResult :=
  runSurveyFrom db addOutcome inputs
    { session := { conv := ConvState.idle, survey := none }, replies := [], submits := [] }

/-- All five answer fields of a record are present. -/
def allFieldsSet (sv : Survey) : Bool :=
  sv.pain_score.isSome && sv.sleep_description.isSome &&
  sv.medication_compliance.isSome && sv.side_effects.isSome && sv.comments.isSome

/-- Which answer fields are guaranteed present on entry to each state. -/
def surveyOKFor : ConvState → Survey → Bool
  | ConvState.idle, _ => true
  | ConvState.q1, _ => true
  | ConvState.q2, sv => sv.pain_score.isSome
  | ConvState.q3, sv => sv.pain_score.isSome && sv.sleep_description.isSome
  | ConvState.q4, sv =>
      sv.pain_score.isSome && sv.sleep_description.isSome && sv.medication_compliance.isSome
  | ConvState.q5, sv =>
      sv.pain_score.isSome && sv.sleep_description.isSome &&
      sv.medication_compliance.isSome && sv.side_effects.isSome

/-- Session invariant: inside the conversation the `survey` key exists and
holds every answer collected so far. -/
def sessOK (sess : Session) : Bool :=
  match sess.conv, sess.survey with
  | ConvState.idle, _ => true
  | st, some sv => surveyOKFor st sv
  | _, none => false

/-- The pain input is rejected by `q1_pain` (lines 279-283): integer parse
failure, or a parsed value outside `[0,10]`. -/
def painInputInvalid (t : String) : Bool :=
  match pyIntParse (pyStrip t) with
  | none => true
  | some p => !(0 ≤ p ∧ p ≤ 10 : Bool)

/-- Substring test on character lists: `pat` occurs contiguously in `s`. -/
def charsContain : List Char → List Char → Bool
  | [], pat => pat.isPrefixOf []
  | c :: rest, pat => pat.isPrefixOf (c :: rest) || charsContain rest pat

/-- Substring test on strings. -/
def strContains (s pat : String) : Bool := charsContain s.data pat.data

/-- The full valid run of spec §8: press the survey button, then answer the
five questions. -/
def c1Inputs : List String :=
  [SURVEY_BTN, "5", "Good", "None", "None", "no comments"]

/-- The record the `c1Inputs` run submits. -/
def c1Record : Survey :=
  { pain_score := some 5, sleep_description := some "Good",
    medication_compliance := some "None", side_effects := some "None",
    comments := some "no comments" }

/-- Python truthiness test of an environment variable: `not X` is true when
the variable is unset or the empty string. -/
def pyFalsyStr : Option String → Bool
  | none => true
  | some s => s == ""

/-- Python `X or default` on an environment variable. -/
def pyOrDefault (v : Option String) (dflt : String) : String :=
  match v with
  | some s => if s == "" then dflt else s
  | none => dflt

/-- Observable startup behaviour (lines 48-53 and `main`, lines 382-446). -/
structure StartupModel where
  loggedMissingError : Bool
  effectiveToken : String
  effectiveUrl : String
  beginsServing : Bool
deriving DecidableEq

/-- Module-level startup logic (lines 48-53) followed by `main`: when the
token or the external hostname is unset/empty an error is logged and the
placeholders `FAKE_TOKEN` / `FAKE_URL` are substituted; `main` then
unconditionally builds the application and calls `run_webhook`
(lines 441-446), so the process begins serving either way. -/
def startupModel (token url : Option String) : StartupModel :=
  if pyFalsyStr token || pyFalsyStr url then
    { loggedMissingError := true,
      effectiveToken := pyOrDefault token "FAKE_TOKEN",
      effectiveUrl := pyOrDefault url "FAKE_URL",
      beginsServing := true }
  else
    { loggedMissingError := false,
      effectiveToken := pyOrDefault token "FAKE_TOKEN",
      effectiveUrl := pyOrDefault url "FAKE_URL",
      beginsServing := true }

/-! Helper lemmas about the substring test. -/

theorem nil_isPrefixOf (l : List Char) : ([] : List Char).isPrefixOf l = true := by
  cases l <;> rfl

theorem isPrefixOf_self (l : List Char) : l.isPrefixOf l = true := by
  induction l with
  | nil => rfl
  | cons c rest ih => simp [List.isPrefixOf, ih]

theorem isPrefixOf_extend (p s t : List Char) (h : p.isPrefixOf s = true) :
    p.isPrefixOf (s ++ t) = true := by
  induction p generalizing s with
  | nil => exact nil_isPrefixOf (s ++ t)
  | cons c cs ih =>
    cases s with
    | nil => simp [List.isPrefixOf] at h
    | cons b bs =>
      simp only [List.isPrefixOf, List.cons_append, Bool.and_eq_true] at h ⊢
      exact ⟨h.1, ih bs h.2⟩

theorem charsContain_of_isPrefixOf (s p : List Char) (h : p.isPrefixOf s = true) :
    charsContain s p = true := by
  cases s with
  | nil => simpa [charsContain] using h
  | cons c rest => simp [charsContain, h]

theorem charsContain_append_right (a b p : List Char) (h : charsContain b p = true) :
    charsContain (a ++ b) p = true := by
  induction a with
  | nil => simpa using h
  | cons c cs ih => simp [charsContain, List.cons_append, ih]

theorem charsContain_append_left (a b p : List Char) (h : charsContain a p = true) :
    charsContain (a ++ b) p = true := by
  induction a with
  | nil =>
    cases p with
    | nil => exact charsContain_of_isPrefixOf b [] (nil_isPrefixOf b)
    | cons q qs => simp [charsContain, List.isPrefixOf] at h
  | cons c cs ih =>
    simp only [charsContain, Bool.or_eq_true, List.cons_append] at h ⊢
    rcases h with h | h
    · left
      have := isPrefixOf_extend p (c :: cs) b h
      simpa [List.cons_append] using this
    · right
      exact ih h

theorem strContains_append_right (a b pat : String) (h : strContains b pat = true) :
    strContains (a ++ b) pat = true := by
  unfold strContains at h ⊢
  rw [String.data_append]
  exact charsContain_append_right a.data b.data pat.data h

theorem strContains_append_left (a b pat : String) (h : strContains a pat = true) :
    strContains (a ++ b) pat = true := by
  unfold strContains at h ⊢
  rw [String.data_append]
  exact charsContain_append_left a.data b.data pat.data h

theorem strContains_self (s : String) : strContains s s = true :=
  charsContain_of_isPrefixOf s.data s.data (isPrefixOf_self s.data)

theorem strContains_self_append (s t : String) : strContains (s ++ t) s = true :=
  strContains_append_left s t s (strContains_self s)

/-! Helper lemmas about the state-machine invariant. -/

theorem stateStep_cancel_trigger (sess : Session) (h : Survey → HandlerOut) (t : String)
    (ht : t = "/cancel" ∨ t = CANCEL_BTN) : stateStep sess t h = cancel := by
  rcases ht with rfl | rfl
  · have h1 : filtersPass "/cancel" = false := by decide
    have h2 : (isCancelCommand "/cancel" || "/cancel" == CANCEL_BTN) = true := by decide
    simp [stateStep, h1, h2]
  · have h1 : filtersPass CANCEL_BTN = false := by decide
    have h2 : (isCancelCommand CANCEL_BTN || CANCEL_BTN == CANCEL_BTN) = true := by decide
    simp [stateStep, h1, h2]

theorem sessOK_step (db : Bool) (add : Except String Unit) (sess : Session) (t : String)
    (h : sessOK sess = true) :
    sessOK (surveyStep db add sess t).session = true ∧
    ∀ r ∈ (surveyStep db add sess t).submits, allFieldsSet r = true := by
  obtain ⟨conv, sv⟩ := sess
  cases conv with
  | idle =>
    simp only [surveyStep]
    split
    · simp [start_survey, sessOK, surveyOKFor]
    · simp [sessOK]
  | q1 =>
    cases sv with
    | none => simp [sessOK] at h
    | some s =>
      simp only [surveyStep, stateStep]
      split
      · simp only [applyHandler, q1_pain]
        split
        · split
          · simp [sessOK, surveyOKFor]
          · simp [sessOK, surveyOKFor]
        · simp [sessOK, surveyOKFor]
      · split
        · simp [cancel, sessOK]
        · simpa [sessOK] using h
  | q2 =>
    cases sv with
    | none => simp [sessOK] at h
    | some s =>
      simp only [sessOK, surveyOKFor] at h
      simp only [surveyStep, stateStep]
      split
      · simp [applyHandler, q2_sleep, sessOK, surveyOKFor, h]
      · split
        · simp [cancel, sessOK]
        · simp [sessOK, surveyOKFor, h]
  | q3 =>
    cases sv with
    | none => simp [sessOK] at h
    | some s =>
      simp only [sessOK, surveyOKFor, Bool.and_eq_true] at h
      simp only [surveyStep, stateStep]
      split
      · simp [applyHandler, q3_medication, sessOK, surveyOKFor, h.1, h.2]
      · split
        · simp [cancel, sessOK]
        · simp [sessOK, surveyOKFor, h.1, h.2]
  | q4 =>
    cases sv with
    | none => simp [sessOK] at h
    | some s =>
      simp only [sessOK, surveyOKFor, Bool.and_eq_true] at h
      simp only [surveyStep, stateStep]
      split
      · simp [applyHandler, q4_side_effects, sessOK, surveyOKFor, h.1.1, h.1.2, h.2]
      · split
        · simp [cancel, sessOK]
        · simp [sessOK, surveyOKFor, h.1.1, h.1.2, h.2]
  | q5 =>
    cases sv with
    | none => simp [sessOK] at h
    | some s =>
      simp only [sessOK, surveyOKFor, Bool.and_eq_true] at h
      simp only [surveyStep, stateStep]
      split
      · simp [applyHandler, q5_comments_and_save, sessOK, surveyOKFor, allFieldsSet,
          h.1.1.1, h.1.1.2, h.1.2, h.2]
      · split
        · simp [cancel, sessOK]
        · simp [sessOK, surveyOKFor, h.1.1.1, h.1.1.2, h.1.2, h.2]

theorem runSurveyFrom_allFields (db : Bool) (add : Except String Unit) :
    ∀ (inputs : List String) (acc : StepResult),
      sessOK acc.session = true →
      (∀ r ∈ acc.submits, allFieldsSet r = true) →
      ∀ r ∈ (runSurveyFrom db add inputs acc).submits, allFieldsSet r = true := by
  intro inputs
  induction inputs with
  | nil =>
    intro acc h1 h2
    simpa [runSurveyFrom] using h2
  | cons t ts ih =>
    intro acc h1 h2
    simp only [runSurveyFrom]
    apply ih
    · exact (sessOK_step db add acc.session t h1).1
    · intro r hr
      simp only [List.mem_append] at hr
      rcases hr with hr | hr
      · exact h2 r hr
      · exact (sessOK_step db add acc.session t h1).2 r hr

/-! Claim theorems. -/

/-- C1 (amended): the full valid run — survey button, then "5", "Good",
"None", "None", "no comments" — ends with the conversation terminated and
the session discarded, submits exactly one record to the persistence
gateway with all five answer fields set, and the final user-facing reply is
the success summary, which echoes the pain score as "5 / 10" (the template
puts spaces around the slash). -/
theorem claim1_full_valid_run :
    (runSurvey true (Except.ok ()) c1Inputs).session =
      { conv := ConvState.idle, survey := none } ∧
    (runSurvey true (Except.ok ()) c1Inputs).submits = [c1Record] ∧
    allFieldsSet c1Record = true ∧
    (runSurvey true (Except.ok ()) c1Inputs).replies.getLast! = successMessage c1Record ∧
    strContains ((runSurvey true (Except.ok ()) c1Inputs).replies.getLast!) "**5 / 10**" = true := by
  decide

/-- C1 counterexample: in that same full valid run the final reply does NOT
contain the substring "5/10" — the summary renders the score as "5 / 10",
so the claim's quoted echo "5/10" is false as stated. -/
theorem claim1_reply_counterexample :
    (runSurvey true (Except.ok ()) c1Inputs).replies.getLast! = successMessage c1Record ∧
    strContains ((runSurvey true (Except.ok ()) c1Inputs).replies.getLast!) "5/10" = false := by
  decide

/-- C2: every input whose stripped text parses as an integer p with
0 ≤ p ≤ 10, handled in the `AwaitingPain` state, stores
`pain_score = p`, replies with the sleep prompt, and advances to
`AwaitingSleep`. -/
theorem claim2_pain_valid_advances (sv : Survey) (t : String) (p : Int)
    (hparse : pyIntParse (pyStrip t) = some p) (h0 : 0 ≤ p) (h10 : p ≤ 10) :
    q1_pain sv t =
      { survey := some { sv with pain_score := some p },
        conv := ConvState.q2, replies := [q2Prompt p], submits := [] } := by
  simp only [q1_pain, hparse]
  rw [if_pos ⟨h0, h10⟩]

/-- C2 witness: the input "5". -/
theorem claim2_witness :
    q1_pain emptySurvey "5" =
      { survey := some { emptySurvey with pain_score := some 5 },
        conv := ConvState.q2, replies := [q2Prompt 5], submits := [] } :=
  claim2_pain_valid_advances emptySurvey "5" 5 (by decide) (by decide) (by decide)

/-- C3: every input that fails integer parsing or parses outside [0,10],
handled in the `AwaitingPain` state, leaves the partial record untouched
(`pain_score` stays unset), re-prompts with the error note, and stays in
`AwaitingPain`. -/
theorem claim3_pain_invalid_stays (sv : Survey) (t : String)
    (h : painInputInvalid t = true) :
    q1_pain sv t =
      { survey := some sv, conv := ConvState.q1,
        replies := [painErrorMessage], submits := [] } := by
  unfold painInputInvalid at h
  unfold q1_pain
  rcases hparse : pyIntParse (pyStrip t) with _ | p
  · rfl
  · rw [hparse] at h
    simp only [Bool.not_eq_true', decide_eq_false_iff_not] at h
    simp [h]

/-- C3 witness: the out-of-range input "11". -/
theorem claim3_witness :
    q1_pain emptySurvey "11" =
      { survey := some emptySurvey, conv := ConvState.q1,
        replies := [painErrorMessage], submits := [] } :=
  claim3_pain_invalid_stays emptySurvey "11" (by decide)

/-- C4: a cancellation trigger (the `/cancel` command or the cancel button)
received in any of the five non-terminal survey states discards the session
immediately: the partial answers are dropped, nothing is submitted to the
gateway, and the dialog returns to idle with no active survey. -/
theorem claim4_cancel_discards (db : Bool) (add : Except String Unit)
    (sess : Session) (t : String)
    (hst : sess.conv ≠ ConvState.idle) (ht : t = "/cancel" ∨ t = CANCEL_BTN) :
    surveyStep db add sess t =
      { session := { conv := ConvState.idle, survey := none },
        replies := [cancelMessage], submits := [] } := by
  obtain ⟨conv, sv⟩ := sess
  cases conv with
  | idle => exact absurd rfl hst
  | q1 => exact stateStep_cancel_trigger ⟨ConvState.q1, sv⟩ _ t ht
  | q2 => exact stateStep_cancel_trigger ⟨ConvState.q2, sv⟩ _ t ht
  | q3 => exact stateStep_cancel_trigger ⟨ConvState.q3, sv⟩ _ t ht
  | q4 => exact stateStep_cancel_trigger ⟨ConvState.q4, sv⟩ _ t ht
  | q5 => exact stateStep_cancel_trigger ⟨ConvState.q5, sv⟩ _ t ht

/-- C4 witness: pressing the cancel button mid-survey (state 3 with two
answers already collected). -/
theorem claim4_witness :
    surveyStep true (Except.ok ())
      { conv := ConvState.q3,
        survey := some ⟨some 5, some "Хорошо", none, none, none⟩ }
      CANCEL_BTN =
      { session := { conv := ConvState.idle, survey := none },
        replies := [cancelMessage], submits := [] } :=
  claim4_cancel_discards true (Except.ok ()) _ CANCEL_BTN (by decide) (Or.inr rfl)

/-- C5: after the final submission step the session and all entered answers
are discarded regardless of the write outcome (user data cleared, dialog
ended), the gateway is invoked exactly once (no retry), and on a failed
write the reply is the plain-language failure notice. -/
theorem claim5_submit_discards_session (db : Bool) (add : Except String Unit)
    (sv : Survey) (t : String) :
    (q5_comments_and_save db add sv t).survey = none ∧
    (q5_comments_and_save db add sv t).conv = ConvState.idle ∧
    (q5_comments_and_save db add sv t).submits =
      [{ sv with comments := some (pyStrip t) }] ∧
    (save_survey_data db add = false →
      (q5_comments_and_save db add sv t).replies = [saveErrorMessage]) := by
  refine ⟨rfl, rfl, rfl, fun hf => ?_⟩
  simp [q5_comments_and_save, hf]

/-- C5 witness: a submission attempted with the database unavailable. -/
theorem claim5_witness :
    (q5_comments_and_save false (Except.ok ()) emptySurvey "ок").survey = none ∧
    (q5_comments_and_save false (Except.ok ()) emptySurvey "ок").replies = [saveErrorMessage] :=
  ⟨(claim5_submit_discards_session false (Except.ok ()) emptySurvey "ок").1,
   (claim5_submit_discards_session false (Except.ok ()) emptySurvey "ок").2.2.2 (by decide)⟩

/-- C6: `save_survey_data` never propagates an error past its boundary: on
any backend failure — database client unavailable, or the write call
raising — it returns the failure result `false`. -/
theorem claim6_save_failure_returns_false (db : Bool) (add : Except String Unit)
    (h : db = false ∨ ∃ e, add = Except.error e) :
    save_survey_data db add = false := by
  rcases h with rfl | ⟨e, rfl⟩
  · rfl
  · cases db <;> rfl

/-- C6 witness: an unavailable database and a raising write. -/
theorem claim6_witness :
    save_survey_data false (Except.ok ()) = false ∧
    save_survey_data true (Except.error "unavailable") = false :=
  ⟨claim6_save_failure_returns_false false (Except.ok ()) (Or.inl rfl),
   claim6_save_failure_returns_false true (Except.error "unavailable")
     (Or.inr ⟨"unavailable", rfl⟩)⟩

/-- C7: along every dialog from the idle state, every record that reaches
the persistence gateway has all five answer fields present — reaching the
submission requires having passed through all five question states. -/
theorem claim7_submit_all_fields (db : Bool) (add : Except String Unit)
    (inputs : List String) (rec : Survey)
    (hmem : rec ∈ (runSurvey db add inputs).submits) :
    allFieldsSet rec = true := by
  refine runSurveyFrom_allFields db add inputs
    { session := { conv := ConvState.idle, survey := none }, replies := [], submits := [] }
    rfl ?_ rec hmem
  intro r hr
  simp at hr

/-- C7 witness: the record submitted by the full valid run. -/
theorem claim7_witness : allFieldsSet c1Record = true :=
  claim7_submit_all_fields true (Except.ok ()) c1Inputs c1Record (by decide)

/-- C8 (amended): if the bot token or the external base URL is absent (or
empty) at startup, the process logs an error but does NOT fail fast: it
substitutes the placeholders FAKE_TOKEN / FAKE_URL and still begins
serving traffic. -/
theorem claim8_startup_no_fail_fast (token url : Option String)
    (h : (pyFalsyStr token || pyFalsyStr url) = true) :
    (startupModel token url).loggedMissingError = true ∧
    (startupModel token url).beginsServing = true := by
  simp [startupModel, h]

/-- C8 counterexample: with both variables absent the process logs the
error yet still begins serving, contradicting "does not begin serving
traffic". -/
theorem claim8_counterexample :
    (startupModel none none).loggedMissingError = true ∧
    ¬ (startupModel none none).beginsServing = false := by decide

/-- C8 witness: token absent, URL present. -/
theorem claim8_witness :
    (startupModel none (some "example.onrender.com")).loggedMissingError = true ∧
    (startupModel none (some "example.onrender.com")).beginsServing = true :=
  claim8_startup_no_fail_fast none (some "example.onrender.com") (by decide)

/-- C9 (amended): every text message handled in a free-text survey state
(`AwaitingSleep` through `AwaitingComments`) stores the message text with
leading/trailing whitespace stripped into the corresponding field, emits
one reply (the next prompt; for the final step, the submission summary),
and advances exactly one state (the comments step ends the conversation). -/
theorem claim9_free_text_steps (db : Bool) (add : Except String Unit)
    (sv : Survey) (t : String) :
    q2_sleep sv t =
      { survey := some { sv with sleep_description := some (pyStrip t) },
        conv := ConvState.q3, replies := [q3Prompt], submits := [] } ∧
    q3_medication sv t =
      { survey := some { sv with medication_compliance := some (pyStrip t) },
        conv := ConvState.q4, replies := [q4Prompt], submits := [] } ∧
    q4_side_effects sv t =
      { survey := some { sv with side_effects := some (pyStrip t) },
        conv := ConvState.q5, replies := [q5Prompt], submits := [] } ∧
    (q5_comments_and_save db add sv t).survey = none ∧
    (q5_comments_and_save db add sv t).conv = ConvState.idle ∧
    (q5_comments_and_save db add sv t).submits =
      [{ sv with comments := some (pyStrip t) }] ∧
    (q5_comments_and_save db add sv t).replies.length = 1 :=
  ⟨rfl, rfl, rfl, rfl, rfl, rfl, rfl⟩

/-- C9 counterexample: the sleep answer " Хорошо " is stored stripped, as
"Хорошо", not as the raw message text — the handlers call `.strip()`. -/
theorem claim9_counterexample :
    (q2_sleep emptySurvey " Хорошо ").survey =
      some { emptySurvey with sleep_description := some "Хорошо" } ∧
    ¬ ((q2_sleep emptySurvey " Хорошо ").survey =
      some { emptySurvey with sleep_description := some " Хорошо " }) := by decide

/-- C10: for any record whose write succeeds, the success reply contains the
literal uninterpolated substring
"\x7bfinal_survey_data.get(\x27medication_compliance\x27, \x27N/A\x27)\x7d"
(the medication line is a plain, non-f string in the source), the reply does
not depend on the medication answer at all, while the pain-score line is
interpolated correctly. -/
theorem claim10_medication_line_literal (sv : Survey) (p : Int) (m : Option String)
    (hp : sv.pain_score = some p) :
    strContains (successMessage sv) medicationLiteralLine = true ∧
    strContains (successMessage sv)
      ("- Оценка боли: **" ++ toString p ++ " / 10**") = true ∧
    successMessage { sv with medication_compliance := m } = successMessage sv := by
  have hpd : painScoreGet sv = toString p := by simp [painScoreGet, hp]
  refine ⟨?_, ?_, rfl⟩
  · unfold successMessage
    apply strContains_append_left
    apply strContains_append_right
    decide
  · unfold successMessage
    rw [hpd]
    apply strContains_append_left
    apply strContains_append_left
    apply strContains_append_right
    have hnl : (" / 10**\n" : String) = " / 10**" ++ "\n" := by decide
    rw [hnl, ← String.append_assoc]
    exact strContains_self_append ("- Оценка боли: **" ++ toString p ++ " / 10**") "\n"

/-- C10 witness: the record of the full valid run, pain score 5, medication
answer "Да". -/
theorem claim10_witness :
    strContains (successMessage c1Record) medicationLiteralLine = true ∧
    strContains (successMessage c1Record)
      ("- Оценка боли: **" ++ toString (5 : Int) ++ " / 10**") = true ∧
    successMessage { c1Record with medication_compliance := some "Да" } =
      successMessage c1Record :=
  claim10_medication_line_literal c1Record 5 (some "Да") rfl

end RenderBot
